import Mathlib

/-!
Shallow embedding of the element / image-locator subsystem of the
`albion_auto_orders` repository, translated from
`src/packages/element/element.py` and
`src/packages/image_manager/image_manager.py`.

Python objects live on a heap indexed by natural numbers; attribute
mutation is explicit state passing.  Recursive tree walks
(`set_location` via `_update_children_location`, `set_walk_path`) take
a fuel argument because the Python code would diverge on a cyclic
parent chain; every theorem below supplies fuel exceeding the depth of
the trees involved, so the embedded runs coincide with the Python runs.
Screen interaction (pyautogui template search, OCR) is modelled by
oracles: a static image-search map for one fixed screen and a
time-indexed OCR fragment list; emitted mouse clicks are collected in a
trace.  Wall-clock time in the polling loops is modelled as an integer
number of seconds advancing by a fixed amount per loop iteration.
-/

namespace AlbionOrders

/-- Mouse buttons passed to pyautogui (`pyautogui.LEFT`,
`pyautogui.RIGHT`, or any other value, which
`ImageManager.click_image` rejects). -/
inductive MouseButton
  | left
  | right
  | otherButton
  deriving DecidableEq

/-- The `through` argument of `Element.click`: the strings
`"coordinates"`, `"image"`, or anything else (which falls through to
the final `return False`). -/
inductive Through
  | coordinates
  | image
  | otherMode
  deriving DecidableEq

/-- One Python `Element` object: the attributes of
`Element.__init__` that the verified operations read or write.
`stem` is `self.element.stem`; `offsetx`/`offsety` are
`self._offsetx`/`self._offsety` (captured from the constructor
`location` argument); `location` is the cached absolute position
(`None` when unset); `parent` is the parent reference;
`children` is the name-keyed child dict in insertion order;
`pathToOrigin` is `self.path_to_origin`; `valid` is `self._valid`,
the result of `_check_image_manager_instance()` (a pure function of
the image folder contents, supplied from outside). -/
structure PyElem where
  stem : String
  offsetx : Int
  offsety : Int
  location : Option (Int × Int)
  parent : Option Nat
  children : List (String × Nat)
  pathToOrigin : List Nat
  valid : Bool
  deriving DecidableEq

/-- The Python object heap: object identity is a natural number. -/
abbrev Heap := Nat → Option PyElem

def emptyHeap : Heap := fun _ => none

/-- Store an object at an identity. -/
def Heap.set (h : Heap) (i : Nat) (e : PyElem) : Heap :=
  fun n => if n = i then some e else h n

/-- Mutate the object at an identity, when present. -/
def Heap.modify (h : Heap) (i : Nat) (f : PyElem → PyElem) : Heap :=
  match h i with
  | none => h
  | some e => h.set i (f e)

/-- Python dict single-key assignment `d[k] = v` / `d.update({k: v})`:
replaces in place when the key exists, else appends, preserving
insertion order. -/
def dictInsert {α : Type} : List (String × α) → String → α → List (String × α)
  | [], k, v => [(k, v)]
  | (k1, v1) :: rest, k, v =>
    if k1 = k then (k, v) :: rest else (k1, v1) :: dictInsert rest k v

/-- Python `d.get(k)`. -/
def dictGet {α : Type} : List (String × α) → String → Option α
  | [], _ => none
  | (k1, v1) :: rest, k => if k1 = k then some v1 else dictGet rest k

/-- `Element.set_location(location, x, y)` together with
`Element._update_children_location` (which calls `set_location()` with
no arguments on every child).  Returns the updated heap and the Python
return value.  Branches, in source order:
1. all of `location`, `x`, `y`, `self.parent` are `None`: update
   children, return `location` (i.e. `None`) without touching
   `self.location`;
2. `self.parent is None` (but some argument given): update children,
   return `location or (0, 0)` — again without assigning
   `self.location`;
3. parent present: `loc = self.parent.location or (0, 0)`, then the
   new absolute location is `loc + location`, or `loc + (x, y)`, or
   `loc + (self._offsetx, self._offsety)`; it is assigned to
   `self.location` before the children are updated, and the method
   returns the `self.location` attribute read back after the children
   ran. -/
def set_location : Nat → Heap → Nat → Option (Int × Int) → Option Int → Option Int →
    Heap × Option (Int × Int)
  | 0, h, _, _, _, _ => (h, none)
  | fuel+1, h, i, location, x, y =>
    match h i with
    | none => (h, none)
    | some e =>
      if location.isNone && x.isNone && y.isNone && e.parent.isNone then
        (e.children.foldl (fun acc c => (set_location fuel acc c.2 none none none).1) h,
         location)
      else
        match e.parent with
        | none =>
          (e.children.foldl (fun acc c => (set_location fuel acc c.2 none none none).1) h,
           some (location.getD (0, 0)))
        | some p =>
          let ploc := ((h p).bind PyElem.location).getD (0, 0)
          let newloc : Int × Int :=
            match location, x, y with
            | some l, _, _ => (ploc.1 + l.1, ploc.2 + l.2)
            | none, some xv, some yv => (ploc.1 + xv, ploc.2 + yv)
            | _, _, _ => (ploc.1 + e.offsetx, ploc.2 + e.offsety)
          let h1 := h.set i { e with location := some newloc }
          let h2 := e.children.foldl
            (fun acc c => (set_location fuel acc c.2 none none none).1) h1
          (h2, (h2 i).bind PyElem.location)

/-- `Element.set_walk_path(element)`: while the walked element has a
parent, append that parent to `self.path_to_origin` and recurse. -/
def set_walk_path : Nat → Heap → Nat → Nat → Heap
  | 0, h, _, _ => h
  | fuel+1, h, selfId, elemId =>
    match h elemId with
    | none => h
    | some e =>
      match e.parent with
      | none => h
      | some p =>
        set_walk_path fuel
          (h.modify selfId (fun s => { s with pathToOrigin := s.pathToOrigin ++ [p] }))
          selfId p

/-- `Element.set_parent(parent)`.  The body is guarded by
`if self.parent is not None:`; inside the guard it assigns
`self.parent = parent`, then runs `parent.children.update({stem: self})`
(an `AttributeError` when `parent` is `None`, flagged by the returned
Bool), then `self.set_walk_path(self)`.  When `self.parent` is `None`
the call does nothing. -/
def set_parent (fuel : Nat) (h : Heap) (selfId : Nat) (parent : Option Nat) :
    Heap × Bool :=
  match h selfId with
  | none => (h, false)
  | some e =>
    if e.parent.isSome then
      let h1 := h.set selfId { e with parent := parent }
      match parent with
      | none => (h1, true)
      | some p =>
        let h2 := h1.modify p
          (fun pe => { pe with children := dictInsert pe.children e.stem selfId })
        (set_walk_path fuel h2 selfId selfId, false)
    else (h, false)

/-- `Element.__init__(name, image_manager, location, parent, children=None)`
for the `children=None` case (the only one the repository uses; other
cases are modelled at `get_children`).  In source order: the attributes
are created (with `self.parent = parent` and offsets captured from
`location`), then `self.location = self.set_location(location)` runs —
note the cached location is the return value of `set_location`, which
for a root element is the argument itself, or `None` — then
`self.path_to_origin = [self]`, then `self.set_parent(parent)` links
into the parent and builds the walk path. -/
def newElement (fuel : Nat) (h : Heap) (i : Nat) (stem : String)
    (location : Option (Int × Int)) (parent : Option Nat) (validImage : Bool) : Heap :=
  let e0 : PyElem :=
    { stem := stem
      offsetx := (location.getD (0, 0)).1
      offsety := (location.getD (0, 0)).2
      location := none
      parent := parent
      children := []
      pathToOrigin := []
      valid := validImage }
  let h1 := Heap.set h i e0
  let r := set_location fuel h1 i location none none
  let h3 := Heap.modify r.1 i (fun e => { e with location := r.2, pathToOrigin := [i] })
  (set_parent fuel h3 i parent).1

/-- The argument accepted by `Element._get_children`: `None`, a dict,
a single `Element`, or a list of `Element`s. -/
inductive ChildrenArg
  | noneArg
  | dict (d : List (String × Nat))
  | single (c : Nat)
  | listArg (cs : List Nat)

/-- `Element._get_children(children)`.  The dict case passes the dict
through unchanged (without setting any parent back-reference); `None`
becomes the empty dict.  The single-`Element` and list cases first set
`child.parent = self` on each child and then evaluate
`child.image.stem` — but `Element` has no attribute `image`, so both
raise `AttributeError` (result `none`) after the parent assignments
already happened. -/
def get_children (h : Heap) (selfId : Nat) :
    ChildrenArg → Heap × Option (List (String × Nat))
  | .noneArg => (h, some [])
  | .dict d => (h, some d)
  | .single c =>
    (h.modify c (fun e => { e with parent := some selfId }), none)
  | .listArg cs =>
    (cs.foldl (fun acc c => acc.modify c (fun e => { e with parent := some selfId })) h,
     none)

/-- `Element.add_child(children, overwrite=False)`: normalizes the
argument through `_get_children` (whose `AttributeError` propagates,
flagged by the returned Bool), then merges into `self.children`,
skipping keys that already exist unless `overwrite` is set. -/
def add_child (h : Heap) (selfId : Nat) (arg : ChildrenArg) (overwrite : Bool) :
    Heap × Bool :=
  match get_children h selfId arg with
  | (h1, none) => (h1, true)
  | (h1, some kids) =>
    (kids.foldl
      (fun acc kv =>
        match acc selfId with
        | none => acc
        | some se =>
          match dictGet se.children kv.1 with
          | some _ =>
            if overwrite then Heap.set acc selfId
              { se with children := dictInsert se.children kv.1 kv.2 }
            else acc
          | none => Heap.set acc selfId
              { se with children := dictInsert se.children kv.1 kv.2 })
      h1, false)

/-- One emitted pointer action: a `pyautogui.click(button=b, clicks=n)`
at the position the cursor was moved to. -/
structure ClickEvent where
  x : Int
  y : Int
  button : MouseButton
  times : Nat
  deriving DecidableEq

/-- The external world seen by the click operations: `found` is the
screen-search oracle (the result of template matching a named
reference image against the one fixed screen under the confidence in
use — the spec notes `locate` is deterministic for a fixed screen);
`trace` collects the pointer actions emitted so far, in order. -/
structure World where
  found : String → Option (Int × Int)
  trace : List ClickEvent

def World.emit (w : World) (e : ClickEvent) : World :=
  { w with trace := w.trace ++ [e] }

/-- `Element._click_coordinates(button, offset, times)`: `False` when
`self.location is None`, else move to `location + offset`, click, and
return `True`. -/
def click_coordinates (h : Heap) (w : World) (i : Nat)
    (button : MouseButton) (offset : Int × Int) (times : Nat) : World × Bool :=
  match h i with
  | none => (w, false)
  | some e =>
    match e.location with
    | none => (w, false)
    | some loc =>
      (w.emit { x := loc.1 + offset.1, y := loc.2 + offset.2,
                button := button, times := times }, true)

/-- `ImageManager.click_image(name, button, times, offset, confidence)`:
locate the image; when found, move to `position + offset` and click
for `LEFT`/`RIGHT` buttons (any other button logs an error and returns
`False` without clicking). -/
def im_click_image (w : World) (name : String) (button : MouseButton)
    (times : Nat) (offset : Int × Int) : World × Bool :=
  match w.found name with
  | none => (w, false)
  | some pos =>
    match button with
    | .left =>
      (w.emit { x := pos.1 + offset.1, y := pos.2 + offset.2,
                button := .left, times := times }, true)
    | .right =>
      (w.emit { x := pos.1 + offset.1, y := pos.2 + offset.2,
                button := .right, times := times }, true)
    | .otherButton => (w, false)

/-- `Element.visible(confidence, timeout)`: requires a valid image
manager binding and delegates to `ImageManager.wait_image`; on the one
fixed screen this succeeds exactly when the search oracle finds the
bound image. -/
def visible (h : Heap) (w : World) (i : Nat) : Bool :=
  match h i with
  | none => false
  | some e => e.valid && (w.found e.stem).isSome

/-- `Element._click_image(offset, confidence, button, times)`: when
`self._valid` and `self.visible()`, calls
`ImageManager.click_image` (whose own result is discarded) and returns
`True`; otherwise returns `False`. -/
def click_image (h : Heap) (w : World) (i : Nat) (offset : Int × Int)
    (button : MouseButton) (times : Nat) : World × Bool :=
  match h i with
  | none => (w, false)
  | some e =>
    if e.valid then
      if visible h w i then
        ((im_click_image w e.stem button times offset).1, true)
      else (w, false)
    else (w, false)

/-- The non-walk body of `Element.click`: after the pre-click sleep,
`through == "coordinates"` tries `_click_coordinates` and falls back to
`_click_image`; `through == "image"` goes straight to `_click_image`;
any other value returns `False`. -/
def click_no_walk (h : Heap) (w : World) (i : Nat) (offset : Int × Int)
    (button : MouseButton) (times : Nat) (through : Through) : World × Bool :=
  match through with
  | .coordinates =>
    let r := click_coordinates h w i button offset times
    if r.2 then (r.1, true) else click_image h r.1 i offset button times
  | .image => click_image h w i offset button times
  | .otherMode => (w, false)

/-- `Element.click(offset, confidence, button, times, timeout, walk,
through, fail_safe)`.  With `walk=True` it iterates
`reversed(self.path_to_origin)` and calls `element.click` on each with
`walk=False` and the default offset `(0, 0)`, button `LEFT` and
`times=1`, ignoring every result, then returns `True`.  With
`walk=False` it runs the non-walk body. -/
def click (h : Heap) (w : World) (i : Nat) (offset : Int × Int)
    (button : MouseButton) (times : Nat) (walk : Bool) (through : Through) :
    World × Bool :=
  if walk then
    (((((h i).map PyElem.pathToOrigin).getD []).reverse).foldl
      (fun acc e => (click_no_walk h acc e (0, 0) MouseButton.left 1 through).1) w,
     true)
  else click_no_walk h w i offset button times through

/-- Loop state of `ImageManager.wait_image`: `found` is
`is_visible is not None`, `now` the current wall clock (seconds,
call time = 0), `checkpoint` the `checkpoint_time` variable, and
`reviveClicks` counts the recovery clicks issued. -/
structure WaitState where
  found : Bool
  now : Int
  checkpoint : Int
  reviveClicks : Nat
  deriving DecidableEq

/-- The polling loop of `ImageManager.wait_image`, one iteration per
`step` seconds (each iteration performs one `locate_image` — found
exactly when the screen oracle says so at that instant — then sleeps).
After each poll, if `now - checkpoint_time > 5` seconds the loop
clicks the revive image (when one is configured) and resets the
checkpoint.  `deadline` is the Python `start_time` rendered relative
to the call instant, i.e. `timeout` minutes expressed in seconds. -/
def wait_image_loop (screen : Int → Bool) (revive : Bool) (step deadline : Int) :
    Nat → WaitState → WaitState
  | 0, s => s
  | fuel+1, s =>
    if s.found = false ∧ s.now < deadline then
      let fnd := screen s.now
      let now2 := s.now + step
      let fire : Bool := decide (now2 - s.checkpoint > 5)
      wait_image_loop screen revive step deadline fuel
        { found := fnd
          now := now2
          checkpoint := if fire then now2 else s.checkpoint
          reviveClicks := if fire && revive then s.reviveClicks + 1 else s.reviveClicks }
    else s

/-- `ImageManager.wait_image(name, timeout, confidence, revive_img)`:
initial state per the source — `is_visible = None`,
`start_time = now + timedelta(minutes=timeout)` and
`checkpoint_time = start_time`, i.e. the checkpoint starts at the
deadline, not at the call instant.  The Python return value is
`found` of the final state. -/
def wait_image (screen : Int → Bool) (revive : Bool) (step deadline : Int)
    (fuel : Nat) : WaitState :=
  wait_image_loop screen revive step deadline fuel
    { found := false, now := 0, checkpoint := deadline, reviveClicks := 0 }

/-- Loop state of `ImageManager.wait_text`: `found` is the Python
variable holding `False`, `True`, or what would be `None`
(`Option Bool`: `some false`, `some true`, `none`); `captures` counts
screenshot/OCR rounds actually performed. -/
structure WaitTextState where
  found : Option Bool
  now : Int
  checkpoint : Int
  captures : Nat
  reviveClicks : Nat
  deriving DecidableEq

/-- Whether `needle` occurs contiguously inside the character list. -/
def charsContain (needle : List Char) : List Char → Bool
  | [] => needle.isEmpty
  | c :: rest => needle.isPrefixOf (c :: rest) || charsContain needle rest

/-- Python substring test `needle in hay`. -/
def strContainsSub (hay needle : String) : Bool :=
  charsContain needle.data hay.data

/-- The polling loop of `ImageManager.wait_text`, translated exactly:
guard `while found is None and datetime.now() < start_time`; the body
captures the region, runs OCR (`ocr t` is the fragment list at instant
`t`), sets `found = True` when some fragment contains the needle, then
does the same 5-second revive checkpoint bookkeeping as `wait_image`
and sleeps. -/
def wait_text_loop (ocr : Int → List String) (needle : String) (revive : Bool)
    (step deadline : Int) : Nat → WaitTextState → WaitTextState
  | 0, s => s
  | fuel+1, s =>
    if s.found.isNone ∧ s.now < deadline then
      let frags := ocr s.now
      let found2 := if frags.any (fun t => strContainsSub t needle) then some true
        else s.found
      let now2 := s.now + step
      let fire : Bool := decide (now2 - s.checkpoint > 5)
      wait_text_loop ocr needle revive step deadline fuel
        { found := found2
          now := now2
          checkpoint := if fire then now2 else s.checkpoint
          captures := s.captures + 1
          reviveClicks := if fire && revive then s.reviveClicks + 1 else s.reviveClicks }
    else s

/-- `ImageManager.wait_text(text_to_search, timeout, offset, region,
revive_img, tesseract_config)`: the source initializes `found=False`
(not `None`), `start_time = now + timedelta(minutes=timeout)` and
`checkpoint_time = start_time`, then enters the loop above; it returns
the `found` variable of the final state. -/
def wait_text (ocr : Int → List String) (needle : String) (revive : Bool)
    (step deadline : Int) (fuel : Nat) : WaitTextState :=
  wait_text_loop ocr needle revive step deadline fuel
    { found := some false, now := 0, checkpoint := deadline, captures := 0,
      reviveClicks := 0 }

/-- A decoded reference image (content identity). -/
abbrev Image := Nat

/-- A directory listing in `iterdir` order: file stem paired with the
decoded image, or `none` when `cv2.imread` fails on that file. -/
abbrev Directory := List (String × Option Image)

/-- `ImageManager.load_images()`: iterate the folder, skip files that
fail to decode, and register each readable image in `images_map` under
its stem.  The existing map is extended in place — no key is ever
removed. -/
def load_images (dir : Directory) (m : List (String × Image)) :
    List (String × Image) :=
  dir.foldl
    (fun acc f => match f.2 with
      | none => acc
      | some img => dictInsert acc f.1 img)
    m

/-- `ImageManager.__init__`: `images_map` starts empty and
`load_images()` fills it from the folder. -/
def new_image_manager (dir : Directory) : List (String × Image) :=
  load_images dir []

/-- The `images_map.get(image)` lookup step of
`ImageManager.locate_image`. -/
def images_map_get (m : List (String × Image)) (name : String) : Option Image :=
  dictGet m name

/-!  Theorems about the embedded operations, one per spec claim.  -/

/-- Claim C10: for every element, offset, button, click count and
click-through mode, `Element.click` with `walk=True` returns `True`
unconditionally — the walk loop discards each per-element result —
so in walk mode the boolean result carries no information about
whether any click succeeded. -/
theorem click_walk_always_returns_true (h : Heap) (w : World) (i : Nat)
    (offset : Int × Int) (button : MouseButton) (times : Nat) (through : Through) :
    (click h w i offset button times true through).2 = true := rfl

/-- Claim C2 (code bug): `wait_text` never polls.  Because the source
initializes `found = False` while the loop guard tests
`found is None`, the loop body is unreachable: for every OCR oracle,
needle, revive configuration, poll step, deadline and fuel the final
state equals the initial state — zero screen captures, zero recovery
clicks, exit at the call instant (`now = 0`, before any positive
deadline) — and the returned `found` is `False`. -/
theorem wait_text_never_polls (ocr : Int → List String) (needle : String)
    (revive : Bool) (step deadline : Int) (fuel : Nat) :
    wait_text ocr needle revive step deadline fuel
      = { found := some false, now := 0, checkpoint := deadline, captures := 0,
          reviveClicks := 0 } := by
  cases fuel with
  | zero => rfl
  | succ n => simp [wait_text, wait_text_loop]

/-- The revive checkpoint of `wait_image` starts at the deadline and,
as long as each iteration advances the clock by at most the 5-second
threshold, the fire condition `now - checkpoint_time > 5` can never
hold before the deadline, so the checkpoint never moves and no
recovery click is ever issued. -/
theorem wait_image_loop_checkpoint_stuck (screen : Int → Bool) (revive : Bool)
    (step deadline : Int) (hstep : step ≤ 5) :
    ∀ (fuel : Nat) (s : WaitState), s.checkpoint = deadline → s.reviveClicks = 0 →
      (wait_image_loop screen revive step deadline fuel s).reviveClicks = 0 := by
  intro fuel
  induction fuel with
  | zero => intro s _ h2; exact h2
  | succ n ih =>
    intro s h1 h2
    rw [wait_image_loop]
    by_cases hg : s.found = false ∧ s.now < deadline
    · rw [if_pos hg]
      have hnow := hg.2
      have hfire : ¬ (5 < s.now + step - deadline) := by omega
      apply ih
      · simp [hfire, h1]
      · simp [hfire, h1, h2]
    · rw [if_neg hg]
      exact h2

/-- Claim C3 (code bug): during a `wait_image` call the recovery click
never fires at all, for any screen, any revive configuration, any
deadline and any fuel, provided each poll iteration takes at most the
5-second sub-interval (in the source an iteration takes roughly 2.5
seconds: a bounded `locate_image` search plus `sleep(0.5)`).  The
cause is `checkpoint_time = start_time`: the checkpoint is initialised
to the deadline rather than to the start of the wait. -/
theorem wait_image_revive_never_fires (screen : Int → Bool) (revive : Bool)
    (step deadline : Int) (fuel : Nat) (hstep : step ≤ 5) :
    (wait_image screen revive step deadline fuel).reviveClicks = 0 :=
  wait_image_loop_checkpoint_stuck screen revive step deadline hstep fuel
    { found := false, now := 0, checkpoint := deadline, reviveClicks := 0 } rfl rfl

/-- Witness for C3: a one-minute wait polled every 3 seconds with a
configured revive image and a target that never appears issues zero
recovery clicks. -/
theorem wait_image_revive_never_fires_witness :
    (wait_image (fun _ => false) true 3 60 40).reviveClicks = 0 :=
  wait_image_revive_never_fires (fun _ => false) true 3 60 40 (by decide)

/-- The `wait_image` loop with an absent target terminates through its
own guard: the final state reports not-found, its clock is past the
deadline (the guard really became false) and within one poll step of
it.  `fuel` only needs to cover the deadline because every iteration
advances the clock by at least one second. -/
theorem wait_image_loop_deadline_bound (screen : Int → Bool) (revive : Bool)
    (step deadline : Int) (hstep : 1 ≤ step) (hscreen : ∀ t, screen t = false) :
    ∀ (fuel : Nat) (s : WaitState), s.found = false → s.now < deadline + step →
      deadline - s.now ≤ (fuel : Int) →
      (wait_image_loop screen revive step deadline fuel s).found = false ∧
      deadline ≤ (wait_image_loop screen revive step deadline fuel s).now ∧
      (wait_image_loop screen revive step deadline fuel s).now < deadline + step := by
  intro fuel
  induction fuel with
  | zero =>
    intro s hf hlt hfuel
    rw [wait_image_loop]
    refine ⟨hf, ?_, hlt⟩
    simp only [Nat.cast_zero] at hfuel
    by_cases hg : s.found = false ∧ s.now < deadline
    · omega
    · omega
  | succ n ih =>
    intro s hf hlt hfuel
    rw [wait_image_loop]
    by_cases hg : s.found = false ∧ s.now < deadline
    · rw [if_pos hg]
      have hnow := hg.2
      apply ih
      · exact hscreen s.now
      · show s.now + step < deadline + step
        omega
      · show deadline - (s.now + step) ≤ (n : Int)
        have : ((n + 1 : Nat) : Int) = (n : Int) + 1 := by push_cast; ring
        omega
    · rw [if_neg hg]
      refine ⟨hf, ?_, hlt⟩
      rcases not_and_or.mp hg with hc | hc
      · exact absurd hf hc
      · omega

/-- Claim C9: with a finite deadline `D` (seconds; the Python `timeout`
is `D/60` minutes) and a target that never appears, `wait_image`
returns `False`, does not return before `D`, and returns strictly
within `D` plus one poll interval — it never blocks past the finite
deadline.  `wait_till_visible` with a finite timeout delegates to this
call unchanged. -/
theorem wait_returns_within_deadline (screen : Int → Bool) (revive : Bool)
    (step deadline : Int) (fuel : Nat) (hstep : 1 ≤ step) (hdl : 0 ≤ deadline)
    (hfuel : deadline ≤ (fuel : Int)) (hscreen : ∀ t, screen t = false) :
    (wait_image screen revive step deadline fuel).found = false ∧
    deadline ≤ (wait_image screen revive step deadline fuel).now ∧
    (wait_image screen revive step deadline fuel).now < deadline + step := by
  apply wait_image_loop_deadline_bound screen revive step deadline hstep hscreen fuel
  · rfl
  · show (0 : Int) < deadline + step
    omega
  · show deadline - 0 ≤ (fuel : Int)
    omega

/-- Witness for C9: a 3-second deadline polled every 2 seconds with
an always-empty screen returns not-found at clock 4, inside
`[3, 3 + 2)`. -/
theorem wait_returns_within_deadline_witness :
    (wait_image (fun _ => false) false 2 3 5).found = false ∧
    (3 : Int) ≤ (wait_image (fun _ => false) false 2 3 5).now ∧
    (wait_image (fun _ => false) false 2 3 5).now < 3 + 2 :=
  wait_returns_within_deadline (fun _ => false) false 2 3 5 (by decide) (by decide)
    (by decide) (fun _ => rfl)

/-- The C1 scenario tree: root element `a` at `(100, 100)` with child
`b` declared at offset `(10, 20)` (ids 0 and 1). -/
def c1heap : Heap :=
  newElement 10 (newElement 10 emptyHeap 0 ("a") (some (100, 100)) none false)
    1 ("b") (some (10, 20)) (some 0) false

/-- The heap after `A.set_location((200, 200))`. -/
def c1moved : Heap := (set_location 10 c1heap 0 (some (200, 200)) none none).1

/-- The heap after the subsequent recomputation `A.set_location()`. -/
def c1recomputed : Heap := (set_location 10 c1moved 0 none none none).1

/-- Claim C1 counterexample: in the spec scenario — root A at
`(100, 100)`, child B at offset `(10, 20)` — moving A with
`A.set_location((200, 200))` and recomputing with `A.set_location()`
leaves A cached at `(100, 100)` and B at `(110, 120)`, not the claimed
`(210, 220)`: the no-parent branch of `set_location` returns the new
location without assigning `self.location`. -/
theorem move_root_scenario_fails :
    (c1recomputed 0).bind PyElem.location = some (100, 100) ∧
    (c1recomputed 1).bind PyElem.location = some (110, 120) ∧
    ¬ ((c1recomputed 1).bind PyElem.location = some (210, 220)) := by decide

/-- A three-deep chain `a → p → b` (ids 0–2): root `a` at `(a1, a2)`,
`p` declared at offset `(p1, p2)`, grandchild `b` at `(b1, b2)`. -/
def pchain (a1 a2 p1 p2 b1 b2 : Int) : Heap :=
  newElement 4
    (newElement 4 (newElement 4 emptyHeap 0 ("a") (some (a1, a2)) none false)
      1 ("p") (some (p1, p2)) (some 0) false)
    2 ("b") (some (b1, b2)) (some 1) false

set_option maxHeartbeats 8000000 in
/-- Claim C1 amended: (first block) construction already satisfies
`location(child) = location(parent) + declared offset` along the whole
chain; (second block) relocating the non-root element `p` by
`p.set_location((n1, n2))` recomputes `p` against its parent and
propagates top-down to its descendants, so the invariant holds at `p`
and at the grandchild `b`; (third block) a root is moved only by
assigning the return value back
(`A.location = A.set_location((n1, n2))`, the exact idiom `__init__`
uses) followed by a recomputation `A.set_location()`, after which
every descendant resolves to the new root location plus its
accumulated declared offsets — calling `set_location` alone never
moves a root (see the counterexample). -/
theorem relocation_propagates_with_assignment (a1 a2 p1 p2 b1 b2 n1 n2 : Int) :
    (let h0 := pchain a1 a2 p1 p2 b1 b2
     ((h0 0).bind PyElem.location = some (a1, a2)) ∧
     ((h0 1).bind PyElem.location = some (a1 + p1, a2 + p2)) ∧
     ((h0 2).bind PyElem.location = some ((a1 + p1) + b1, (a2 + p2) + b2))) ∧
    (let h := (set_location 4 (pchain a1 a2 p1 p2 b1 b2) 1
        (some (n1, n2)) none none).1
     ((h 1).bind PyElem.location = some (a1 + n1, a2 + n2)) ∧
     ((h 2).bind PyElem.location = some ((a1 + n1) + b1, (a2 + n2) + b2))) ∧
    (let m := set_location 4 (pchain a1 a2 p1 p2 b1 b2) 0 (some (n1, n2)) none none
     let h7 := (set_location 4
        (Heap.modify m.1 0 (fun e => { e with location := m.2 })) 0 none none none).1
     ((h7 0).bind PyElem.location = some (n1, n2)) ∧
     ((h7 1).bind PyElem.location = some (n1 + p1, n2 + p2)) ∧
     ((h7 2).bind PyElem.location = some ((n1 + p1) + b1, (n2 + p2) + b2))) := by
  exact ⟨⟨rfl, rfl, rfl⟩, ⟨rfl, rfl⟩, ⟨rfl, rfl, rfl⟩⟩

/-- A three-deep chain `a → b → c` (ids 0–2) with arbitrary
coordinates, used for the walk-click scenario. -/
def chain3 (a1 a2 b1 b2 c1 c2 : Int) : Heap :=
  newElement 10
    (newElement 10 (newElement 10 emptyHeap 0 ("a") (some (a1, a2)) none false)
      1 ("b") (some (b1, b2)) (some 0) false)
    2 ("c") (some (c1, c2)) (some 1) false

/-- Claim C4: on a 3-deep chain, `click` with `walk=True` on the leaf
issues exactly 3 click actions, one per element of the walk path, in
root-to-leaf order (each at that element's resolved absolute
location, the element itself last), for every choice of coordinates
and of screen-search oracle. -/
theorem walk_click_three_deep_chain (a1 a2 b1 b2 c1 c2 : Int)
    (f : String → Option (Int × Int)) :
    (click (chain3 a1 a2 b1 b2 c1 c2) { found := f, trace := [] } 2 (0, 0)
        MouseButton.left 1 true Through.coordinates).1.trace =
      [{ x := a1, y := a2, button := MouseButton.left, times := 1 },
       { x := a1 + b1, y := a2 + b2, button := MouseButton.left, times := 1 },
       { x := (a1 + b1) + c1, y := (a2 + b2) + c2,
         button := MouseButton.left, times := 1 }] := by
  have h1 : (click (chain3 a1 a2 b1 b2 c1 c2) { found := f, trace := [] } 2 (0, 0)
        MouseButton.left 1 true Through.coordinates).1.trace =
      [{ x := a1 + 0, y := a2 + 0, button := MouseButton.left, times := 1 },
       { x := (a1 + b1) + 0, y := (a2 + b2) + 0,
         button := MouseButton.left, times := 1 },
       { x := ((a1 + b1) + c1) + 0, y := ((a2 + b2) + c2) + 0,
         button := MouseButton.left, times := 1 }] := rfl
  rw [h1]
  simp

/-- An element that cannot be located: no cached location, no valid
image binding (id 0, walk path `[0]` as `__init__` sets it). -/
def c5elem : PyElem :=
  { stem := "z", offsetx := 0, offsety := 0, location := none, parent := none,
    children := [], pathToOrigin := [0], valid := false }

def c5heap : Heap := Heap.set emptyHeap 0 c5elem

/-- Claim C5 counterexample: with `walk=True`, `click` on an element
that cannot be located (no cached location, no image) returns `True`,
not `False` — while issuing no click at all. -/
theorem unlocatable_walk_click_returns_true :
    (click c5heap { found := fun _ => none, trace := [] } 0 (0, 0) MouseButton.left 1
        true Through.coordinates).2 = true ∧
    (click c5heap { found := fun _ => none, trace := [] } 0 (0, 0) MouseButton.left 1
        true Through.coordinates).1.trace = [] := by decide

/-- Claim C5 amended: in non-walk mode (`walk=False`) the claim holds:
for every element and every combination of the remaining click
arguments, when the element has no valid cached location and cannot be
found by image search (invalid binding, or image absent from the
screen), `click` returns `False` — it never raises; all failure paths
end in a boolean.  (With `walk=True` the result is unconditionally
`True`, see the counterexample.) -/
theorem click_nonwalk_unlocatable_returns_false (h : Heap) (w : World) (i : Nat)
    (e : PyElem) (offset : Int × Int) (button : MouseButton) (times : Nat)
    (through : Through) (he : h i = some e) (hloc : e.location = none)
    (hfind : e.valid = false ∨ w.found e.stem = none) :
    (click h w i offset button times false through).2 = false := by
  rcases hfind with hv | hf
  · cases through <;>
      simp [click, click_no_walk, click_coordinates, click_image, visible,
        he, hloc, hv]
  · cases through <;>
      simp [click, click_no_walk, click_coordinates, click_image, visible,
        he, hloc, hf]

/-- Witness for the amended C5 at a concrete unlocatable element. -/
theorem click_nonwalk_unlocatable_returns_false_witness :
    (click c5heap { found := fun _ => none, trace := [] } 0 (0, 0) MouseButton.left 1
        false Through.coordinates).2 = false :=
  click_nonwalk_unlocatable_returns_false c5heap
    { found := fun _ => none, trace := [] } 0 c5elem (0, 0) MouseButton.left 1
    Through.coordinates rfl rfl (Or.inl rfl)

/-- Claim C7 counterexample: an element constructed with no parent and
no explicit location caches `None`, not `(0, 0)`. -/
def c7heap : Heap := newElement 10 emptyHeap 0 ("a") none none false

theorem root_default_location_not_origin :
    ¬ ((c7heap 0).bind PyElem.location = some ((0 : Int), (0 : Int))) := by decide

/-- Claim C7 amended: an element constructed with no parent and no
explicit location has no cached absolute location (`None`); it is
only for a child's resolution that the missing parent location is
read back as the origin — `loc = self.parent.location or (0, 0)` — so
a child declared at offset `(dx, dy)` resolves to `(dx, dy)` itself. -/
theorem root_default_location_none_child_origin (dx dy : Int) :
    (c7heap 0).bind PyElem.location = none ∧
    ((newElement 10 c7heap 1 ("b") (some (dx, dy)) (some 0) false) 1).bind
      PyElem.location = some (dx, dy) := by
  refine ⟨rfl, ?_⟩
  have h1 : ((newElement 10 c7heap 1 ("b") (some (dx, dy)) (some 0) false) 1).bind
      PyElem.location = some (0 + dx, 0 + dy) := rfl
  rw [h1]
  simp

/-- Two unrelated parentless elements `a` (id 0) and `b` (id 1). -/
def c8heap : Heap :=
  newElement 10 (newElement 10 emptyHeap 0 ("a") none none false)
    1 ("b") none none false

/-- Claim C8 (code bug): neither linking operation establishes the
bidirectional link.  `e.set_parent(p)` on an element whose parent is
`None` is a no-op (the body is guarded by
`if self.parent is not None:`): `e.parent` stays `None` and
`p.children` stays empty.  `p.add_child(e)` with an `Element` argument
raises `AttributeError` (the dict comprehension reads the nonexistent
attribute `children.image`) after having set only the child
back-pointer `e.parent = p`; `p.children` is never updated. -/
theorem set_parent_add_child_fail_to_link :
    (set_parent 10 c8heap 1 (some 0)).2 = false ∧
    ((set_parent 10 c8heap 1 (some 0)).1 1).map PyElem.parent = some none ∧
    ((set_parent 10 c8heap 1 (some 0)).1 0).map PyElem.children = some [] ∧
    (add_child c8heap 0 (ChildrenArg.single 1) false).2 = true ∧
    ((add_child c8heap 0 (ChildrenArg.single 1) false).1 1).map PyElem.parent
      = some (some 0) ∧
    ((add_child c8heap 0 (ChildrenArg.single 1) false).1 0).map PyElem.children
      = some [] := by decide

/-- Claim C6 counterexample: after registering an image under stem
`orders`, removing the file from the directory and reloading via
`load_images` (the only reload operation), the lookup still returns
the stale image — `load_images` extends `images_map` and never clears
it, so the reload does not replace the map. -/
theorem reload_keeps_stale_entry :
    images_map_get (load_images []
        (new_image_manager [(("orders"), some 7)])) ("orders") = some 7 ∧
    ¬ (images_map_get (load_images []
        (new_image_manager [(("orders"), some 7)])) ("orders") = none) := by decide

theorem dictGet_dictInsert_self {α : Type} (m : List (String × α)) (k : String)
    (v : α) : dictGet (dictInsert m k v) k = some v := by
  induction m with
  | nil => simp [dictInsert, dictGet]
  | cons head tail ih =>
    obtain ⟨k1, v1⟩ := head
    by_cases hk : k1 = k
    · simp [dictInsert, dictGet, hk]
    · simp [dictInsert, dictGet, hk, ih]

theorem dictGet_dictInsert_ne {α : Type} (m : List (String × α)) (k k2 : String)
    (v : α) (hne : k2 ≠ k) : dictGet (dictInsert m k v) k2 = dictGet m k2 := by
  induction m with
  | nil => simp [dictInsert, dictGet, Ne.symm hne]
  | cons head tail ih =>
    obtain ⟨k1, v1⟩ := head
    by_cases hk : k1 = k
    · subst hk
      simp [dictInsert, dictGet, Ne.symm hne]
    · simp [dictInsert, dictGet, hk, ih]

/-- Loading a directory that does not contain a given stem leaves the
lookup of that stem unchanged. -/
theorem images_map_get_load_images_not_mem (k : String) :
    ∀ (dir : Directory) (m : List (String × Image)), k ∉ dir.map Prod.fst →
      images_map_get (load_images dir m) k = images_map_get m k := by
  intro dir
  induction dir with
  | nil => intro m _; rfl
  | cons head tail ih =>
    intro m hk
    obtain ⟨k1, oimg⟩ := head
    have hk1 : k1 ≠ k := by
      intro hcon
      apply hk
      simp [hcon]
    have hk2 : k ∉ tail.map Prod.fst := by
      intro hcon
      apply hk
      simp [hcon]
    cases oimg with
    | none =>
      have hstep : load_images ((k1, none) :: tail) m = load_images tail m := rfl
      rw [hstep, ih m hk2]
    | some img =>
      have hstep : load_images ((k1, some img) :: tail) m
          = load_images tail (dictInsert m k1 img) := rfl
      rw [hstep, ih _ hk2]
      exact dictGet_dictInsert_ne m k1 k img (Ne.symm hk1)

/-- Claim C6 amended: registering an image file under stem `orders`
and constructing the repository makes the lookup return exactly that
image; but the reload operation `load_images` only merges, so after
removing the file a reload on the same instance still returns the
stale image, and only constructing a fresh repository over the
directory (the map is reset to empty in `__init__`) makes the lookup
return absent. -/
theorem register_lookup_roundtrip (img : Image) (rest dir2 : Directory)
    (h1 : ("orders") ∉ rest.map Prod.fst) (h2 : ("orders") ∉ dir2.map Prod.fst) :
    images_map_get (new_image_manager ((("orders"), some img) :: rest)) ("orders")
      = some img ∧
    images_map_get (load_images dir2 (new_image_manager [(("orders"), some img)]))
      ("orders") = some img ∧
    images_map_get (new_image_manager dir2) ("orders") = none := by
  refine ⟨?_, ?_, ?_⟩
  · have hstep : new_image_manager ((("orders"), some img) :: rest)
        = load_images rest (dictInsert [] ("orders") img) := rfl
    rw [hstep, images_map_get_load_images_not_mem ("orders") rest _ h1]
    exact dictGet_dictInsert_self [] ("orders") img
  · rw [images_map_get_load_images_not_mem ("orders") dir2 _ h2]
    rfl
  · have hstep : new_image_manager dir2 = load_images dir2 [] := rfl
    rw [hstep, images_map_get_load_images_not_mem ("orders") dir2 _ h2]
    rfl

/-- Witness for the amended C6 at a concrete directory. -/
theorem register_lookup_roundtrip_witness :
    images_map_get (new_image_manager ((("orders"), some 7) :: [])) ("orders")
      = some 7 ∧
    images_map_get (load_images [(("x"), some 3)]
      (new_image_manager [(("orders"), some 7)])) ("orders") = some 7 ∧
    images_map_get (new_image_manager [(("x"), some 3)]) ("orders") = none :=
  register_lookup_roundtrip 7 [] [(("x"), some 3)] (by decide) (by decide)

end AlbionOrders
